import Mathlib

/-!
Verification of the fhosts native-messaging proxy helper (Go source,
`src/unnamed/part_001`).  The helper keeps an in-memory hostname
substitution table (`hostMappings`), serves an HTTP proxy on
127.0.0.1:8899 dispatching CONNECT requests to a tunnel engine and plain
requests to an HTTP forwarder, and is driven by a length-prefixed JSON
control channel on stdin/stdout.

The embedding below translates each Go function into a pure Lean
function.  External effects are made explicit:

* outbound control messages (`sendMessage`) become lists of `Message`
  values in the result of each operation;
* the outcome of `net.Listen` is drawn from an environment script
  `binds : List (Option String)` (an entry `some e` means the bind
  attempt fails with error text `e`, `none` means it succeeds; an
  exhausted script means success);
* the outcome of `net.Dial` in the tunnel engine is an explicit
  `Option String` argument (`some e` = dial failed with error text `e`);
* `os.Exit(code)` becomes an `Option Nat` component of the loop result;
* the stdin stream consumed by `readMessage` becomes a list of per-frame
  read outcomes `ReadResult` (the JSON codec `encoding/json` is a
  library, not part of the source: a frame whose body fails to decode -
  in particular the empty body of a zero-length frame, which
  `json.Unmarshal` always rejects - is a `decodeErr` outcome, and the
  byte-level framing itself is modelled by `readFrame`).
-/

namespace Fhosts

/-- The fixed listen port, `const proxyPort = 8899` in the source. -/
def proxyPort : Nat := 8899

/-- A Go `map[string]string` of hostname substitutions, modelled as an
association list whose keys are the (distinct) keys of the map. -/
abbrev Mappings := List (String × String)

/-- The single native-messaging record type of the source (`type Message
struct`): `action` tags inbound commands, `type` tags outbound events,
and the remaining payload fields are zero-valued when absent, exactly as
a Go struct leaves unset fields at their zero value. -/
structure Message where
  action : String := ""
  type : String := ""
  mappings : Mappings := []
  message : String := ""
  port : Nat := 0
  count : Nat := 0
deriving DecidableEq, Repr

/-- `getTargetHost` (source lines 77-85): look the hostname up in
`hostMappings` and fall back to the hostname itself when absent.  The
RWMutex of the source only guards concurrent access and has no
sequential content. -/
def getTargetHost (m : Mappings) (hostname : String) : String :=
  match List.lookup hostname m with
  | some mapped => mapped
  | none => hostname

/-- `net.JoinHostPort` (Go standard library): joins host and port with a
colon, bracketing the host when it contains a colon (IPv6 literal). -/
def joinHostPort (host port : String) : String :=
  if host.toList.contains ':' then "[" ++ host ++ "]:" ++ port
  else host ++ ":" ++ port

/-- `net.SplitHostPort` (Go standard library), modelled for the shapes
the proxy sees: split at the last colon into host and port; a host part
that itself contains a colon must be a bracketed IPv6 literal, whose
brackets are stripped; a string without a colon (missing port) is an
error, as is an unbracketed multi-colon host. -/
def splitHostPort (s : String) : Option (String × String) :=
  let cs := s.toList
  match cs.reverse.dropWhile (fun c => c != ':') with
  | [] => none
  | _ :: hostRev =>
    let host := hostRev.reverse
    let port := (cs.reverse.takeWhile (fun c => c != ':')).reverse
    if host.contains ':' then
      match host with
      | '[' :: t =>
          if t.getLast? = some ']' then some (t.dropLast.asString, port.asString)
          else none
      | _ => none
    else some (host.asString, port.asString)

/-- The host and port a CONNECT request resolves to (source lines
90-94): `net.SplitHostPort` on `r.Host`, falling back to the whole
string with default port 443 when the split fails. -/
def connectHostPort (reqHost : String) : String × String :=
  match splitHostPort reqHost with
  | some hp => hp
  | none => (reqHost, "443")

/-- The substituted dial address of a CONNECT request (source lines
97-98): mapping lookup on the host, rejoined with the port. -/
def connectTarget (m : Mappings) (reqHost : String) : String :=
  joinHostPort (getTargetHost m (connectHostPort reqHost).1)
    (connectHostPort reqHost).2

/-- The diagnostic log of `handleConnect` (source lines 100-102),
emitted only when substitution occurred. -/
def connectLogs (m : Mappings) (reqHost : String) : List Message :=
  if getTargetHost m (connectHostPort reqHost).1 ≠ (connectHostPort reqHost).1 then
    [{ type := "log",
       message := "Tunneling " ++ reqHost ++ " -> " ++ connectTarget m reqHost }]
  else []

/-- The observable outcome of `handleConnect`: control-channel events,
the HTTP response written via `http.Error` (status code and body), if
any; whether the `200 Connection Established` acknowledgment line was
written to the hijacked client connection; and the address a tunnel was
opened to, if any. -/
structure ConnectResult where
  events : List Message
  response : Option (Nat × String)
  ackWritten : Bool
  tunnelTo : Option String
deriving DecidableEq, Repr

/-- `handleConnect` (source lines 88-139).  `dialErr` is the outcome of
`net.Dial` to the substituted target (`some e` = failure with error
text `e`); `hijackOk` is whether the ResponseWriter supports hijacking
and `hijackErr` the outcome of the `Hijack()` call itself. -/
def handleConnect (m : Mappings) (reqHost : String)
    (dialErr : Option String) (hijackOk : Bool)
    (hijackErr : Option String) : ConnectResult :=
  let targetAddr := connectTarget m reqHost
  let logs := connectLogs m reqHost
  match dialErr with
  | some e =>
      { events := logs ++
          [{ type := "error",
             message := "Failed to connect to " ++ targetAddr ++ ": " ++ e }],
        response := some (502, "Bad Gateway"),
        ackWritten := false, tunnelTo := none }
  | none =>
      if !hijackOk then
        { events := logs, response := some (500, "Hijacking not supported"),
          ackWritten := false, tunnelTo := none }
      else
        match hijackErr with
        | some e =>
            { events := logs, response := some (500, e),
              ackWritten := false, tunnelTo := none }
        | none =>
            { events := logs, response := none,
              ackWritten := true, tunnelTo := some targetAddr }

/-- A plain proxied HTTP request as `handleHTTP` reads it: the method,
the hostname and port parsed from the request URL (`""` when the URL
carries no explicit port), and the inbound header as a list of
key-value pairs (one pair per header value, in order). -/
structure HttpRequest where
  method : String
  urlHost : String
  urlPort : String
  headers : List (String × String)
deriving DecidableEq, Repr

/-- The outbound request `handleHTTP` constructs: the method, the
`host:port` the HTTP client will connect to (`targetURL.Host`), and the
outbound header. -/
structure ProxyRequest where
  method : String
  hostPort : String
  headers : List (String × String)
deriving DecidableEq, Repr

/-- `Header.Add`: append one key-value pair. -/
def headerAdd (h : List (String × String)) (key value : String) :
    List (String × String) :=
  h ++ [(key, value)]

/-- `Header.Set`: drop every pair under the key, then bind the key to
the single given value. -/
def headerSet (h : List (String × String)) (key value : String) :
    List (String × String) :=
  h.filter (fun kv => !(kv.1 == key)) ++ [(key, value)]

/-- The list of values a header holds under a key, in order. -/
def headerGet (h : List (String × String)) (key : String) : List String :=
  (h.filter (fun kv => kv.1 == key)).map Prod.snd

/-- `handleHTTP` (source lines 142-174), up to the construction of the
outbound request: default the port to 80, substitute the host through
the mapping table, aim the outbound request at the substituted
`host:port`, copy every inbound header pair with `Add`, then `Set` the
`Host` header to the original hostname.  The result also carries the
diagnostic log emitted when substitution occurred. -/
def handleHTTP (m : Mappings) (r : HttpRequest) :
    ProxyRequest × List Message :=
  let host := r.urlHost
  let port := if r.urlPort = "" then "80" else r.urlPort
  let targetHost := getTargetHost m host
  let logs :=
    if targetHost ≠ host then
      [{ type := "log",
         message := "Proxying HTTP " ++ host ++ " -> " ++ targetHost }]
    else []
  let copied := r.headers.foldl (fun acc kv => headerAdd acc kv.1 kv.2) []
  ({ method := r.method,
     hostPort := joinHostPort targetHost port,
     headers := headerSet copied "Host" host }, logs)

/-- The process state held in the package-level variables of the source:
the substitution table `hostMappings`, and whether the `server` and
`listener` singletons are non-nil. -/
structure ProxyState where
  hostMappings : Mappings := []
  server : Bool := false
  listener : Bool := false
deriving DecidableEq, Repr

/-- One `net.Listen` call against the environment script: the head of
the script is the outcome of this attempt (`some e` = fail with error
text `e`, `none` = success), the tail is kept for later attempts; an
empty script means the bind succeeds. -/
def netListen (binds : List (Option String)) :
    Option String × List (Option String) :=
  match binds with
  | [] => (none, [])
  | b :: rest => (b, rest)

/-- `startProxy` (source lines 208-239).  If the listener is already
non-nil it returns nil at once (before touching the mappings).
Otherwise it installs the given mappings, attempts to bind; on bind
failure it returns the error (the mappings stay installed, no instance
is created); on success it sets the server and listener, emits
`started{port}` and returns nil.  Result: (new state, remaining bind
script, emitted messages, returned error). -/
def startProxy (m : Mappings) (binds : List (Option String))
    (p : ProxyState) :
    ProxyState × List (Option String) × List Message × Option String :=
  if p.listener then (p, binds, [], none)
  else
    let p1 := { p with hostMappings := m }
    match netListen binds with
    | (some e, rest) => (p1, rest, [], some e)
    | (none, rest) =>
        ({ p1 with server := true, listener := true }, rest,
         [{ type := "started", port := proxyPort }], none)

/-- `stopProxy` (source lines 242-252): close the server if present,
close the listener if present, then emit `stopped` unconditionally. -/
def stopProxy (p : ProxyState) : ProxyState × List Message :=
  let p1 := if p.server then { p with server := false } else p
  let p2 := if p1.listener then { p1 with listener := false } else p1
  (p2, [{ type := "stopped" }])

/-- `updateMappings` (source lines 255-260): replace the whole table
under the write lock and emit `mappingsUpdated` with the size of the
new table (`len(mappings)`). -/
def updateMappings (m : Mappings) (p : ProxyState) :
    ProxyState × List Message :=
  ({ p with hostMappings := m },
   [{ type := "mappingsUpdated", count := m.length }])

/-- The `switch msg.Action` dispatch of `main` (source lines 280-298).
Result: (new state, remaining bind script, emitted messages, exit
code requested by `os.Exit`). -/
def handleAction (p : ProxyState) (binds : List (Option String))
    (msg : Message) :
    ProxyState × List (Option String) × List Message × Option Nat :=
  if msg.action = "start" then
    match startProxy msg.mappings binds p with
    | (p1, b1, evs, some e) =>
        (p1, b1,
         evs ++ [{ type := "error",
                   message := "Failed to start proxy: " ++ e }], none)
    | (p1, b1, evs, none) => (p1, b1, evs, none)
  else if msg.action = "updateMappings" then
    let (p1, evs) := updateMappings msg.mappings p
    (p1, binds, evs, none)
  else if msg.action = "stop" then
    let (p1, evs) := stopProxy p
    (p1, binds, evs, some 0)
  else if msg.action = "ping" then
    (p, binds, [{ type := "pong" }], none)
  else
    (p, binds,
     [{ type := "error", message := "Unknown action: " ++ msg.action }],
     none)

/-- One outcome of `readMessage` as seen by the read loop of `main`:
a decoded message, a decode failure (zero-length or malformed JSON
body), end of stream (`io.EOF`), a closed-pipe error recognised by the
`"file already closed"` test, or any other read error. -/
inductive ReadResult where
  | msg (m : Message)
  | decodeErr
  | eof
  | closedErr
  | otherErr
deriving DecidableEq, Repr

/-- The read loop of `main` (source lines 269-299) over a finite stream
of read outcomes.  `eof` and `closedErr` run `stopProxy` and exit 0;
other read errors `continue`; a decoded message is dispatched, and a
requested exit code stops the loop.  An exhausted stream means the
process is still blocked in `readMessage`: no exit code. -/
def mainLoop (p : ProxyState) (binds : List (Option String)) :
    List ReadResult → ProxyState × List Message × Option Nat
  | [] => (p, [], none)
  | r :: rest =>
    match r with
    | .eof =>
        let (p1, evs) := stopProxy p
        (p1, evs, some 0)
    | .closedErr =>
        let (p1, evs) := stopProxy p
        (p1, evs, some 0)
    | .decodeErr => mainLoop p binds rest
    | .otherErr => mainLoop p binds rest
    | .msg m =>
      match handleAction p binds m with
      | (p1, _b1, evs, some c) => (p1, evs, some c)
      | (p1, b1, evs, none) =>
          let (p2, evs2, ex2) := mainLoop p1 b1 rest
          (p2, evs ++ evs2, ex2)

/-- The framing part of `readMessage` (source lines 37-48): read a
4-byte little-endian length prefix, then exactly that many body bytes.
`none` models the `io.ReadFull` error when the stream is exhausted
early; otherwise the result is the frame body and the untouched rest of
the stream, so one frame never misaligns the next. -/
def readFrame (stream : List Nat) : Option (List Nat × List Nat) :=
  match stream with
  | b0 :: b1 :: b2 :: b3 :: rest =>
    let length := b0 + 256 * (b1 + 256 * (b2 + 256 * b3))
    if rest.length < length then none
    else some (rest.take length, rest.drop length)
  | _ => none

/-- Claim C1: for every mapping table `m` and hostname `h`,
`getTargetHost` returns the mapped value when `h` is a key of the table
and returns `h` itself unchanged when it is not; the function is total,
so absence of a mapping is never an error. -/
theorem getTargetHost_mapped_or_identity (m : Mappings) (h : String) :
    (∀ t, List.lookup h m = some t → getTargetHost m h = t) ∧
    (List.lookup h m = none → getTargetHost m h = h) := by
  constructor
  · intro t ht
    simp [getTargetHost, ht]
  · intro hn
    simp [getTargetHost, hn]

/-- Witness for C1 at a concrete table: the mapped key `a` resolves to
its target and the unmapped key `c` is returned unchanged. -/
theorem getTargetHost_mapped_or_identity_witness :
    getTargetHost [("a", "127.0.0.2")] "a" = "127.0.0.2" ∧
    getTargetHost [("a", "127.0.0.2")] "c" = "c" :=
  ⟨(getTargetHost_mapped_or_identity [("a", "127.0.0.2")] "a").1 "127.0.0.2" (by decide),
   (getTargetHost_mapped_or_identity [("a", "127.0.0.2")] "c").2 (by decide)⟩

/-! ### Helper lemmas -/

/-- Copying a header with repeated `Add` reproduces the pair list. -/
lemma foldl_headerAdd (l acc : List (String × String)) :
    l.foldl (fun acc kv => headerAdd acc kv.1 kv.2) acc = acc ++ l := by
  induction l generalizing acc with
  | nil => simp
  | cons kv t ih =>
    rw [List.foldl_cons, ih]
    simp [headerAdd]

/-- After `Set key value`, the key holds exactly the one value. -/
lemma headerGet_headerSet_self (h : List (String × String))
    (key value : String) :
    headerGet (headerSet h key value) key = [value] := by
  induction h with
  | nil => simp [headerGet, headerSet]
  | cons kv t ih =>
    by_cases hkv : kv.1 = key <;>
      simp_all [headerGet, headerSet, List.filter_cons]

/-- `Set key value` leaves every other key untouched. -/
lemma headerGet_headerSet_ne (h : List (String × String))
    (key value k : String) (hk : k ≠ key) :
    headerGet (headerSet h key value) k = headerGet h k := by
  induction h with
  | nil => simp [headerGet, headerSet, Ne.symm hk]
  | cons kv t ih =>
    by_cases hkv : kv.1 = key
    · have hkv2 : kv.1 ≠ k := by rw [hkv]; exact Ne.symm hk
      simp_all [headerGet, headerSet, List.filter_cons]
    · by_cases hkv3 : kv.1 = k <;>
        simp_all [headerGet, headerSet, List.filter_cons]

/-- `stopProxy` in closed form: both singletons nil, one `stopped`
event. -/
lemma stopProxy_eq (p : ProxyState) :
    stopProxy p =
      ({ p with server := false, listener := false },
       [{ type := "stopped" }]) := by
  cases p with
  | mk hm s l => cases s <;> cases l <;> rfl

/-! ### Claims -/

/-- Claim C2: for a plain HTTP request whose URL hostname has a mapping
to `t`, the outbound request targets `t` with the request port
(default 80), its `Host` header is exactly the original hostname, every
other inbound header is copied over unchanged, and the method is
preserved. -/
theorem handleHTTP_substitutes_host_keeps_header (m : Mappings)
    (r : HttpRequest) (t : String)
    (hm : List.lookup r.urlHost m = some t) :
    (handleHTTP m r).1.hostPort =
      joinHostPort t (if r.urlPort = "" then "80" else r.urlPort) ∧
    headerGet (handleHTTP m r).1.headers "Host" = [r.urlHost] ∧
    (∀ k, k ≠ "Host" →
      headerGet (handleHTTP m r).1.headers k = headerGet r.headers k) ∧
    (handleHTTP m r).1.method = r.method := by
  have htar : getTargetHost m r.urlHost = t := by simp [getTargetHost, hm]
  refine ⟨?_, ?_, ?_, rfl⟩
  · simp [handleHTTP, htar]
  · simp [handleHTTP, foldl_headerAdd, headerGet_headerSet_self]
  · intro k hk
    simp [handleHTTP, foldl_headerAdd, headerGet_headerSet_ne _ _ _ _ hk]

/-- Witness for C2: a GET for `a` with mapping `a -> 127.0.0.3` dials
`127.0.0.3:80`, keeps `Host: a`, and copies the `Accept` header. -/
theorem handleHTTP_substitutes_host_keeps_header_witness :
    (handleHTTP [("a", "127.0.0.3")]
        { method := "GET", urlHost := "a", urlPort := "",
          headers := [("Accept", "*")] }).1.hostPort = "127.0.0.3:80" ∧
    headerGet (handleHTTP [("a", "127.0.0.3")]
        { method := "GET", urlHost := "a", urlPort := "",
          headers := [("Accept", "*")] }).1.headers "Host" = ["a"] ∧
    headerGet (handleHTTP [("a", "127.0.0.3")]
        { method := "GET", urlHost := "a", urlPort := "",
          headers := [("Accept", "*")] }).1.headers "Accept" = ["*"] := by
  have h := handleHTTP_substitutes_host_keeps_header [("a", "127.0.0.3")]
    { method := "GET", urlHost := "a", urlPort := "",
      headers := [("Accept", "*")] } "127.0.0.3" (by decide)
  exact ⟨by rw [h.1]; decide, h.2.1, by simpa using h.2.2.1 "Accept" (by decide)⟩

/-- Counterexample to claim C3 as stated: with the proxy already
running, a second `start` does not answer with the success response of
the first start - it emits nothing at all.  Running the loop on two
`start` commands (the first bind succeeding) produces exactly one
`started` event, and dispatching a `start` against an explicit running
state emits the empty message list. -/
theorem second_start_emits_no_response :
    (mainLoop {} [none]
      [ReadResult.msg { action := "start", mappings := [("a", "b")] },
       ReadResult.msg { action := "start", mappings := [("a", "c")] }]).2.1
      = [{ type := "started", port := 8899 }] ∧
    (handleAction
      { hostMappings := [("a", "b")], server := true, listener := true } []
      { action := "start", mappings := [("a", "c")] }).2.2.1 = [] := by
  decide

/-- Claim C3 (amended): calling start while a proxy instance is already
running is a no-op that returns success without rebinding the listener
and without replacing the installed mappings; it emits no response at
all (in particular no `started` event - only the first successful bind
answers with one), and no error either. -/
theorem start_running_noop (p : ProxyState) (binds : List (Option String))
    (m : Mappings) (hrun : p.listener = true) :
    startProxy m binds p = (p, binds, [], none) ∧
    handleAction p binds { action := "start", mappings := m }
      = (p, binds, [], none) := by
  have hs : startProxy m binds p = (p, binds, [], none) := by
    simp [startProxy, hrun]
  exact ⟨hs, by simp [handleAction, hs]⟩

/-- Witness for the amended C3 at a concrete running state. -/
theorem start_running_noop_witness :
    startProxy [("a", "c")] []
        { hostMappings := [("a", "b")], server := true, listener := true }
      = ({ hostMappings := [("a", "b")], server := true, listener := true },
         [], [], none) ∧
    handleAction
        { hostMappings := [("a", "b")], server := true, listener := true } []
        { action := "start", mappings := [("a", "c")] }
      = ({ hostMappings := [("a", "b")], server := true, listener := true },
         [], [], none) :=
  start_running_noop
    { hostMappings := [("a", "b")], server := true, listener := true }
    [] [("a", "c")] rfl

/-- Claim C4: a control frame that fails to decode (a zero-length frame
deframes to the empty body, which the JSON codec rejects, and a
malformed body likewise) does not terminate the process: the read loop
behaves on `decodeErr :: rest` exactly as on `rest`, so any following
valid frame is processed identically, and a bad frame alone requests no
exit; moreover a zero-length frame consumes exactly its four prefix
bytes, leaving the rest of the stream aligned. -/
theorem mainLoop_skips_bad_frame (p : ProxyState)
    (binds : List (Option String)) (rest : List ReadResult) :
    mainLoop p binds (ReadResult.decodeErr :: rest) = mainLoop p binds rest ∧
    (mainLoop p binds [ReadResult.decodeErr]).2.2 = none ∧
    (∀ tail : List Nat, readFrame (0 :: 0 :: 0 :: 0 :: tail) = some ([], tail)) := by
  refine ⟨rfl, rfl, ?_⟩
  intro tail
  simp [readFrame]

/-- Claim C5: a CONNECT request whose substituted target fails to dial
yields exactly the diagnostic log (when substitution occurred) followed
by one `error` event whose message names the dial target (the message
is `Failed to connect to <target>: <err>`, so the target address occurs
in it and the text describes the failed connect attempt), a Bad Gateway
response to the client, no acknowledgment line, and no tunnel. -/
theorem handleConnect_dial_failure (m : Mappings) (reqHost e : String)
    (hijackOk : Bool) (hijackErr : Option String) :
    handleConnect m reqHost (some e) hijackOk hijackErr =
      { events := connectLogs m reqHost ++
          [{ type := "error",
             message := "Failed to connect to " ++ connectTarget m reqHost
               ++ ": " ++ e }],
        response := some (502, "Bad Gateway"),
        ackWritten := false, tunnelTo := none } ∧
    (∃ u v, "Failed to connect to " ++ connectTarget m reqHost ++ ": " ++ e
        = u ++ connectTarget m reqHost ++ v) ∧
    (connectLogs m reqHost = [] ∨
      connectLogs m reqHost =
        [{ type := "log",
           message := "Tunneling " ++ reqHost ++ " -> " ++ connectTarget m reqHost }]) := by
  refine ⟨rfl, ⟨"Failed to connect to ", ": " ++ e, ?_⟩, ?_⟩
  · rw [String.append_assoc]
  · unfold connectLogs
    split <;> simp

/-- Claim C6: `updateMappings` replaces the whole table whatever the
lifecycle state (server and listener fields are untouched), emits one
`mappingsUpdated` event whose count is the size of the new table, and
after two successive replacements every lookup sees only the last
table; the same holds when the command arrives through the dispatch. -/
theorem updateMappings_last_table_wins (p : ProxyState)
    (binds : List (Option String)) (m1 m2 : Mappings) :
    (updateMappings m2 (updateMappings m1 p).1).1.hostMappings = m2 ∧
    (updateMappings m1 p).2
      = [{ type := "mappingsUpdated", count := m1.length }] ∧
    (updateMappings m2 (updateMappings m1 p).1).2
      = [{ type := "mappingsUpdated", count := m2.length }] ∧
    (∀ h, getTargetHost
        (updateMappings m2 (updateMappings m1 p).1).1.hostMappings h
      = getTargetHost m2 h) ∧
    (updateMappings m2 (updateMappings m1 p).1).1.server = p.server ∧
    (updateMappings m2 (updateMappings m1 p).1).1.listener = p.listener ∧
    handleAction p binds { action := "updateMappings", mappings := m2 }
      = ({ p with hostMappings := m2 }, binds,
         [{ type := "mappingsUpdated", count := m2.length }], none) := by
  refine ⟨rfl, rfl, rfl, fun h => rfl, rfl, rfl, ?_⟩
  simp [handleAction, updateMappings]

/-- Claim C7: on end-of-stream, or on a read error recognised as the
transport being gone (`file already closed`), the loop stops the proxy
(both singletons closed, one `stopped` event) and exits with code 0,
whatever input would have followed. -/
theorem mainLoop_eof_stops_and_exits (p : ProxyState)
    (binds : List (Option String)) (rest : List ReadResult) :
    mainLoop p binds (ReadResult.eof :: rest)
      = ({ p with server := false, listener := false },
         [{ type := "stopped" }], some 0) ∧
    mainLoop p binds (ReadResult.closedErr :: rest)
      = ({ p with server := false, listener := false },
         [{ type := "stopped" }], some 0) := by
  constructor <;> simp [mainLoop, stopProxy_eq]

/-- Claim C8: a well-formed control message whose action is none of
start, updateMappings, stop, ping makes the dispatch emit exactly one
`error` event reading `Unknown action: <action>`, leave the state and
the bind script unchanged, and request no exit; inside the loop the
step contributes only that event and continues on the untouched
state. -/
theorem handleAction_unknown_action (p : ProxyState)
    (binds : List (Option String)) (msg : Message)
    (h1 : msg.action ≠ "start") (h2 : msg.action ≠ "updateMappings")
    (h3 : msg.action ≠ "stop") (h4 : msg.action ≠ "ping") :
    handleAction p binds msg
      = (p, binds,
         [{ type := "error", message := "Unknown action: " ++ msg.action }],
         none) ∧
    (∀ rest, mainLoop p binds (ReadResult.msg msg :: rest)
      = ((mainLoop p binds rest).1,
         { type := "error", message := "Unknown action: " ++ msg.action }
           :: (mainLoop p binds rest).2.1,
         (mainLoop p binds rest).2.2)) := by
  have hact : handleAction p binds msg
      = (p, binds,
         [{ type := "error", message := "Unknown action: " ++ msg.action }],
         none) := by
    simp [handleAction, h1, h2, h3, h4]
  refine ⟨hact, fun rest => ?_⟩
  rcases hml : mainLoop p binds rest with ⟨p2, evs2, ex2⟩
  simp [mainLoop, hact, hml]

/-- Witness for C8 at the concrete unknown action `frob`. -/
theorem handleAction_unknown_action_witness :
    handleAction {} [] { action := "frob" }
      = (({} : ProxyState), [],
         [{ type := "error", message := "Unknown action: " ++ "frob" }],
         none) ∧
    mainLoop {} [] [ReadResult.msg { action := "frob" }]
      = (({} : ProxyState),
         [{ type := "error", message := "Unknown action: " ++ "frob" }],
         none) := by
  have h := handleAction_unknown_action {} [] { action := "frob" }
    (by decide) (by decide) (by decide) (by decide)
  exact ⟨h.1, by simpa using h.2 []⟩

/-- Claim C9: `stopProxy` closes whichever of the server and listener
is present, always emits exactly one `stopped` event even when nothing
is running, and a repeated call behaves identically on the already
stopped state, so any number of calls is safe. -/
theorem stopProxy_idempotent (p : ProxyState) :
    stopProxy p
      = ({ p with server := false, listener := false },
         [{ type := "stopped" }]) ∧
    stopProxy (stopProxy p).1
      = ((stopProxy p).1, [{ type := "stopped" }]) := by
  refine ⟨stopProxy_eq p, ?_⟩
  rw [stopProxy_eq p, stopProxy_eq]

/-- Claim C10: when no instance is running and the bind fails, the
mapping table has already been replaced before the bind was attempted:
the failed start leaves the new mappings installed while creating no
instance, so later lookups answer from the new table. -/
theorem startProxy_bindfail_replaces_mappings (p : ProxyState)
    (m : Mappings) (e : String) (rest : List (Option String))
    (hrun : p.listener = false) :
    startProxy m (some e :: rest) p
      = ({ p with hostMappings := m }, rest, [], some e) ∧
    ({ p with hostMappings := m } : ProxyState).listener = p.listener ∧
    ({ p with hostMappings := m } : ProxyState).server = p.server ∧
    (∀ h, getTargetHost ({ p with hostMappings := m } : ProxyState).hostMappings h
      = getTargetHost m h) := by
  refine ⟨?_, rfl, rfl, fun h => rfl⟩
  simp [startProxy, netListen, hrun]

/-- Witness for C10: a failed bind on a fresh state still installs the
new table, and the new table answers later lookups. -/
theorem startProxy_bindfail_replaces_mappings_witness :
    startProxy [("a", "b")] [some "address already in use"] {}
      = (({ hostMappings := [("a", "b")] } : ProxyState), [], [],
         some "address already in use") ∧
    getTargetHost
      (startProxy [("a", "b")] [some "address already in use"]
        ({} : ProxyState)).1.hostMappings "a" = "b" := by
  have h := startProxy_bindfail_replaces_mappings {} [("a", "b")]
    "address already in use" [] rfl
  exact ⟨h.1, by rw [h.1]; decide⟩

end Fhosts
